import Mathlib

/-!
Shallow embedding of the blacklist plugin (`astrbot_plugin_blacklist_tools`).

The persisted state is one SQLite table
`blacklist(user_id TEXT PRIMARY KEY, ban_time TEXT, expire_time TEXT, reason TEXT)`.
We model a table state as a `List BanRecord`; the SQL statements of the two
source files become pure functions on that state:

* `SELECT * FROM blacklist WHERE user_id = ?` (primary-key lookup) is
  `get_user_info` (`List.find?` on the key);
* `INSERT OR REPLACE` is `add_user` (drop any row with the key, add the new row);
* `DELETE FROM blacklist WHERE user_id = ?` is `remove_user`;
* `DELETE FROM blacklist` is `clear_blacklist`;
* `SELECT COUNT(*)` is `get_blacklist_count`;
* `SELECT * FROM blacklist ORDER BY ban_time DESC LIMIT ? OFFSET ?` is
  `get_blacklist_users` (sort by `ban_time` descending, drop the offset,
  take the page size).

Timestamps are ISO-8601 strings in the source, produced by
`datetime.now().isoformat()` and compared after `datetime.fromisoformat`;
that comparison is a linear order on instants, so times are modelled as `Int`.
Durations are Python ints, modelled as `Int` (they may be negative).
Each call of `datetime.now()` in the source becomes one explicit `Int`
argument of the embedding, in call order; successive readings of the clock
are non-decreasing, which appears as a hypothesis `t1 ≤ t2` where relevant.
-/

structure BanRecord where
  user_id : String
  ban_time : Int
  expire_time : Option Int
  reason : String
deriving Repr, DecidableEq

abbrev Blacklist := List BanRecord

/-- Lookup `SELECT * FROM blacklist WHERE user_id = ?` followed by `fetchone`:
the row with the given primary key, if any (`get_user_info` in
`src/database.py`; the same query opens `is_user_blacklisted`,
`on_all_message`, `rm` and `info`). -/
def get_user_info (db : Blacklist) (uid : String) : Option BanRecord :=
  db.find? (fun r => r.user_id == uid)

/-- Upsert `INSERT OR REPLACE INTO blacklist VALUES (?,?,?,?)`, keyed by
`user_id` (`add_user` in `src/database.py`). -/
def add_user (db : Blacklist) (r : BanRecord) : Blacklist :=
  r :: db.filter (fun x => x.user_id != r.user_id)

/-- Statement `DELETE FROM blacklist WHERE user_id = ?`, then `commit`, returning
`True` (`remove_user` in `src/database.py`, lines 118-126: deleting an
absent row is not an error). First component is the returned success flag,
second the table state afterwards. -/
def remove_user (db : Blacklist) (uid : String) : Bool × Blacklist :=
  (true, db.filter (fun r => r.user_id != uid))

/-- Statement `DELETE FROM blacklist` (`clear_blacklist` in `src/database.py`). -/
def clear_blacklist (_ : Blacklist) : Blacklist := []

/-- Query `SELECT COUNT(*) FROM blacklist` (`get_blacklist_count` in
`src/database.py`). -/
def get_blacklist_count (db : Blacklist) : Nat := db.length

/-- Comparison applied by `ORDER BY ban_time DESC` between two rows. -/
def banTimeDesc (a b : BanRecord) : Bool := decide (b.ban_time ≤ a.ban_time)

/-- Query `SELECT * FROM blacklist ORDER BY ban_time DESC LIMIT ? OFFSET ?`
(`get_blacklist_users` in `src/database.py`, lines 78-89):
`offset = (page - 1) * page_size`, rows sorted by `ban_time` descending,
the first `offset` rows skipped, at most `page_size` rows returned. -/
def get_blacklist_users (db : Blacklist) (page page_size : Nat) : List BanRecord :=
  ((db.mergeSort banTimeDesc).drop ((page - 1) * page_size)).take page_size

namespace BlacklistDatabase

/-- Method `is_user_blacklisted` in `src/database.py`, lines 37-67.
`grace` is `self.auto_delete_expired_after` (sentinel `-1` = never
auto-delete), `now` the single `datetime.now()` reading of the call.
Returns the boolean result of the method and the table state afterwards
(the method deletes the row when the grace window has elapsed). -/
def is_user_blacklisted (grace : Int) (db : Blacklist) (uid : String)
    (now : Int) : Bool × Blacklist :=
  match get_user_info db uid with
  | none => (false, db)
  | some r =>
    match r.expire_time with
    | none => (true, db)
    | some expire =>
      if expire < now then
        if grace ≠ -1 ∧ expire + grace < now then
          (false, (remove_user db uid).2)
        else
          (false, db)
      else
        (true, db)

end BlacklistDatabase

namespace MyPlugin

/-- Handler `on_all_message` in `src/main.py`, lines 97-124: the handler wired to
message dispatch. Looks the sender up with inline SQL; a row whose
`expire_time` is strictly in the past is deleted at once (no grace period
exists on this path), otherwise the event is stopped. First component is
whether `event.stop_event()` was called (message blocked), second the
table state afterwards. -/
def on_all_message (db : Blacklist) (sender : String) (now : Int) :
    Bool × Blacklist :=
  match get_user_info db sender with
  | none => (false, db)
  | some r =>
    match r.expire_time with
    | none => (true, db)
    | some expire =>
      if expire < now then
        (false, (remove_user db sender).2)
      else
        (true, db)

/-- Outcome reported by the `rm` command and the `remove_from_blacklist`
LLM tool: either "user not in blacklist" or "user removed". -/
inductive RmOutcome where
  | not_found
  | removed
deriving Repr, DecidableEq

/-- Command `rm` in `src/main.py`, lines 195-214 (and `remove_from_blacklist`,
lines 371-396, which runs the same statements): `SELECT` first; absent row
reports not-found and ends; present row is deleted. -/
def rm (db : Blacklist) (uid : String) : RmOutcome × Blacklist :=
  match get_user_info db uid with
  | none => (RmOutcome.not_found, db)
  | some _ => (RmOutcome.removed, (remove_user db uid).2)

/-- Command `clear` in `src/main.py`, lines 265-282: reads `COUNT(*)`; a count of
zero reports zero and issues no `DELETE`; otherwise everything is deleted
and the pre-clear count reported. -/
def clear (db : Blacklist) : Nat × Blacklist :=
  let count := get_blacklist_count db
  if count = 0 then (0, db) else (count, clear_blacklist db)

/-- The duration actually applied by `add` in `src/main.py`, lines 225-233
(identical in `add_to_blacklist`, lines 335-343):
`actual_duration = duration`; a requested `0` with permanent bans
disallowed becomes `max_duration`; anything above `max_duration` is
clamped to `max_duration`. -/
def add_effective_duration (allow_permanent : Bool) (max_duration : Int)
    (duration : Int) : Int :=
  let actual := if duration = 0 ∧ allow_permanent = false
    then max_duration else duration
  if max_duration < actual then max_duration else actual

/-- The row stored by `add` in `src/main.py`, lines 223-244 (identical in
`add_to_blacklist`, lines 333-355). `datetime.now()` is read twice: `t1`
at line 223 becomes `ban_time`; when the effective duration is positive,
`t2` at line 237 plus that duration becomes `expire_time`. -/
def add_record (allow_permanent : Bool) (max_duration : Int) (uid : String)
    (duration : Int) (reason : String) (t1 t2 : Int) : BanRecord :=
  let actual := add_effective_duration allow_permanent max_duration duration
  { user_id := uid
    ban_time := t1
    expire_time := if 0 < actual then some (t2 + actual) else none
    reason := reason }

/-- Command `add` in `src/main.py`, lines 218-261: compute the row, then
`INSERT OR REPLACE` it. -/
def add (allow_permanent : Bool) (max_duration : Int) (db : Blacklist)
    (uid : String) (duration : Int) (reason : String) (t1 t2 : Int) :
    Blacklist :=
  add_user db (add_record allow_permanent max_duration uid duration reason t1 t2)

end MyPlugin

/-! ### Helper lemmas -/

/-- After `DELETE FROM blacklist WHERE user_id = ?`, the key lookup finds
nothing. -/
theorem get_user_info_remove (db : Blacklist) (uid : String) :
    get_user_info (remove_user db uid).2 uid = none := by
  rw [get_user_info, List.find?_eq_none]
  intro x hx
  rw [remove_user] at hx
  simp only [List.mem_filter, bne_iff_ne, ne_eq] at hx
  simpa using hx.2

/-! ### Claims -/

/-- C1: the membership check is false on an absent record, true on a
permanent record, true on a timed record with `now ≤ expire_time`, and
false on a timed record with `now > expire_time`. -/
theorem is_user_blacklisted_membership (grace : Int) (db : Blacklist)
    (uid : String) (now : Int) :
    (get_user_info db uid = none →
      (BlacklistDatabase.is_user_blacklisted grace db uid now).1 = false) ∧
    (∀ r, get_user_info db uid = some r →
      (r.expire_time = none →
        (BlacklistDatabase.is_user_blacklisted grace db uid now).1 = true) ∧
      (∀ e, r.expire_time = some e →
        (now ≤ e →
          (BlacklistDatabase.is_user_blacklisted grace db uid now).1 = true) ∧
        (e < now →
          (BlacklistDatabase.is_user_blacklisted grace db uid now).1 = false))) := by
  refine ⟨fun h => by simp [BlacklistDatabase.is_user_blacklisted, h],
    fun r hr => ⟨fun he => by simp [BlacklistDatabase.is_user_blacklisted, hr, he],
      fun e he => ⟨fun hle => ?_, fun hlt => ?_⟩⟩⟩
  · have hnot : ¬ e < now := by omega
    simp [BlacklistDatabase.is_user_blacklisted, hr, he, hnot]
  · simp only [BlacklistDatabase.is_user_blacklisted, hr, he, if_pos hlt]
    split <;> rfl

/-- Witness for C1 at concrete inputs: empty table, a permanent record,
a live timed record and an expired timed record. -/
theorem is_user_blacklisted_membership_witness :
    (BlacklistDatabase.is_user_blacklisted (-1) [] "u" 5).1 = false ∧
    (BlacklistDatabase.is_user_blacklisted (-1)
      [{ user_id := "u", ban_time := 0, expire_time := none, reason := "" }]
      "u" 5).1 = true ∧
    (BlacklistDatabase.is_user_blacklisted (-1)
      [{ user_id := "u", ban_time := 0, expire_time := some 10, reason := "" }]
      "u" 5).1 = true ∧
    (BlacklistDatabase.is_user_blacklisted (-1)
      [{ user_id := "u", ban_time := 0, expire_time := some 10, reason := "" }]
      "u" 11).1 = false :=
  ⟨(is_user_blacklisted_membership (-1) [] "u" 5).1 rfl,
   ((is_user_blacklisted_membership (-1)
      [{ user_id := "u", ban_time := 0, expire_time := none, reason := "" }]
      "u" 5).2 _ rfl).1 rfl,
   ((((is_user_blacklisted_membership (-1)
      [{ user_id := "u", ban_time := 0, expire_time := some 10, reason := "" }]
      "u" 5).2 _ rfl).2 10 rfl).1 (by decide)),
   ((((is_user_blacklisted_membership (-1)
      [{ user_id := "u", ban_time := 0, expire_time := some 10, reason := "" }]
      "u" 11).2 _ rfl).2 10 rfl).2 (by decide))⟩

/-- C2: on an expired record the check returns false, deletes the row
exactly when the grace period is not the sentinel `-1` and
`now > expire_time + grace`, and otherwise leaves the row present and
queryable. -/
theorem is_user_blacklisted_lazy_reclamation (grace : Int) (db : Blacklist)
    (uid : String) (r : BanRecord) (e now : Int)
    (hr : get_user_info db uid = some r) (he : r.expire_time = some e)
    (hlt : e < now) :
    (BlacklistDatabase.is_user_blacklisted grace db uid now).1 = false ∧
    ((grace ≠ -1 ∧ e + grace < now) →
      (BlacklistDatabase.is_user_blacklisted grace db uid now).2
        = (remove_user db uid).2 ∧
      get_user_info
        (BlacklistDatabase.is_user_blacklisted grace db uid now).2 uid = none) ∧
    (¬ (grace ≠ -1 ∧ e + grace < now) →
      (BlacklistDatabase.is_user_blacklisted grace db uid now).2 = db ∧
      get_user_info
        (BlacklistDatabase.is_user_blacklisted grace db uid now).2 uid = some r) := by
  simp only [BlacklistDatabase.is_user_blacklisted, hr, he, if_pos hlt]
  refine ⟨?_, fun hdel => ?_, fun hkeep => ?_⟩
  · split <;> rfl
  · rw [if_pos hdel]
    exact ⟨rfl, get_user_info_remove db uid⟩
  · rw [if_neg hkeep]
    exact ⟨rfl, hr⟩

/-- Witness for C2 at the spec's own example: expiry at `0`, grace
`3600`; at `now = 1800` the row stays and is still found, at `now = 3601`
it is deleted and no longer found. -/
theorem is_user_blacklisted_lazy_reclamation_witness :
    ((BlacklistDatabase.is_user_blacklisted 3600
      [{ user_id := "u", ban_time := -5, expire_time := some 0, reason := "" }]
      "u" 1800).1 = false ∧
     (BlacklistDatabase.is_user_blacklisted 3600
      [{ user_id := "u", ban_time := -5, expire_time := some 0, reason := "" }]
      "u" 1800).2
        = [{ user_id := "u", ban_time := -5, expire_time := some 0, reason := "" }]) ∧
    ((BlacklistDatabase.is_user_blacklisted 3600
      [{ user_id := "u", ban_time := -5, expire_time := some 0, reason := "" }]
      "u" 3601).1 = false ∧
     get_user_info (BlacklistDatabase.is_user_blacklisted 3600
      [{ user_id := "u", ban_time := -5, expire_time := some 0, reason := "" }]
      "u" 3601).2 "u" = none) :=
  ⟨⟨(is_user_blacklisted_lazy_reclamation 3600
      [{ user_id := "u", ban_time := -5, expire_time := some 0, reason := "" }]
      "u" { user_id := "u", ban_time := -5, expire_time := some 0, reason := "" }
      0 1800 rfl rfl (by decide)).1,
    (((is_user_blacklisted_lazy_reclamation 3600
      [{ user_id := "u", ban_time := -5, expire_time := some 0, reason := "" }]
      "u" { user_id := "u", ban_time := -5, expire_time := some 0, reason := "" }
      0 1800 rfl rfl (by decide)).2.2 (by decide)).1)⟩,
   ⟨(is_user_blacklisted_lazy_reclamation 3600
      [{ user_id := "u", ban_time := -5, expire_time := some 0, reason := "" }]
      "u" { user_id := "u", ban_time := -5, expire_time := some 0, reason := "" }
      0 3601 rfl rfl (by decide)).1,
    (((is_user_blacklisted_lazy_reclamation 3600
      [{ user_id := "u", ban_time := -5, expire_time := some 0, reason := "" }]
      "u" { user_id := "u", ban_time := -5, expire_time := some 0, reason := "" }
      0 3601 rfl rfl (by decide)).2.1 (by decide)).2)⟩⟩

/-- After an upsert, the key lookup returns exactly the row just written. -/
theorem get_user_info_add (allow : Bool) (max_d : Int) (db : Blacklist)
    (uid : String) (d : Int) (reason : String) (t1 t2 : Int) :
    get_user_info (MyPlugin.add allow max_d db uid d reason t1 t2) uid
      = some (MyPlugin.add_record allow max_d uid d reason t1 t2) := by
  simp [get_user_info, MyPlugin.add, add_user, MyPlugin.add_record, List.find?_cons]

/-- C3: a requested duration of `0` yields a permanent record when
permanent bans are allowed and otherwise an effective duration of exactly
`max_duration`; any request above `max_duration` is clamped to exactly
`max_duration`; the stored row carries an expiry exactly when the
effective duration is positive. -/
theorem add_effective_duration_rules (allow : Bool) (max_d d : Int)
    (uid : String) (reason : String) (t1 t2 : Int) :
    (d = 0 → allow = true →
      (MyPlugin.add_record allow max_d uid d reason t1 t2).expire_time = none) ∧
    (d = 0 → allow = false →
      MyPlugin.add_effective_duration allow max_d d = max_d) ∧
    (max_d < d → MyPlugin.add_effective_duration allow max_d d = max_d) ∧
    ((MyPlugin.add_record allow max_d uid d reason t1 t2).expire_time.isSome
      = decide (0 < MyPlugin.add_effective_duration allow max_d d)) := by
  refine ⟨fun h0 ha => ?_, fun h0 ha => ?_, fun hgt => ?_, ?_⟩
  · have hnot : ¬ 0 < MyPlugin.add_effective_duration allow max_d d := by
      subst h0; subst ha
      simp only [MyPlugin.add_effective_duration]
      simp only [Bool.true_eq_false, and_false, if_false]
      split <;> omega
    simp [MyPlugin.add_record, hnot]
  · simp only [MyPlugin.add_effective_duration, h0, ha]
    simp
  · simp only [MyPlugin.add_effective_duration]
    split <;> (try split) <;> omega
  · simp only [MyPlugin.add_record]
    split <;> simp_all

/-- Witness for C3: with `max_duration = 100`, requesting `0` with
permanence allowed stores no expiry; requesting `0` with permanence
disallowed gives effective duration `100`; requesting `500` gives `100`;
requesting `7` stores an expiry. -/
theorem add_effective_duration_rules_witness :
    (MyPlugin.add_record true 100 "u" 0 "" 0 0).expire_time = none ∧
    MyPlugin.add_effective_duration false 100 0 = 100 ∧
    MyPlugin.add_effective_duration true 100 500 = 100 ∧
    (MyPlugin.add_record true 100 "u" 7 "" 0 0).expire_time.isSome
      = decide (0 < MyPlugin.add_effective_duration true 100 7) :=
  ⟨(add_effective_duration_rules true 100 0 "u" "" 0 0).1 rfl rfl,
   (add_effective_duration_rules false 100 0 "u" "" 0 0).2.1 rfl rfl,
   (add_effective_duration_rules true 100 500 "u" "" 0 0).2.2.1 (by decide),
   (add_effective_duration_rules true 100 7 "u" "" 0 0).2.2.2⟩

/-- C4 counterexample: `add` reads `datetime.now()` twice; with readings
`t1 = 0` (recorded as `ban_time`) and `t2 = 5` (a valid later reading of
a monotone clock) and duration `10`, the stored expiry is `15`, not
`ban_time + 10 = 10`. -/
theorem add_expire_not_ban_time_cex :
    (0 : Int) ≤ 5 ∧
    MyPlugin.add_effective_duration true 100 10 = 10 ∧
    (MyPlugin.add_record true 100 "u" 10 "" 0 5).ban_time = 0 ∧
    (MyPlugin.add_record true 100 "u" 10 "" 0 5).expire_time = some 15 ∧
    (MyPlugin.add_record true 100 "u" 10 "" 0 5).expire_time
      ≠ some ((MyPlugin.add_record true 100 "u" 10 "" 0 5).ban_time + 10) := by
  refine ⟨by decide, by decide, rfl, by decide, by decide⟩

/-- C4 amended: with a positive effective duration `a`, the stored row has
`ban_time = t1` (the first clock reading) and
`expire_time = t2 + a` where `t2` is the second, later clock reading; so
the expiry is at least `ban_time + a`, with equality exactly when the two
readings coincide. -/
theorem add_expire_from_second_clock (allow : Bool) (max_d : Int)
    (db : Blacklist) (uid : String) (d : Int) (reason : String) (t1 t2 : Int)
    (hmono : t1 ≤ t2)
    (hpos : 0 < MyPlugin.add_effective_duration allow max_d d) :
    get_user_info (MyPlugin.add allow max_d db uid d reason t1 t2) uid
      = some (MyPlugin.add_record allow max_d uid d reason t1 t2) ∧
    (MyPlugin.add_record allow max_d uid d reason t1 t2).ban_time = t1 ∧
    (MyPlugin.add_record allow max_d uid d reason t1 t2).expire_time
      = some (t2 + MyPlugin.add_effective_duration allow max_d d) ∧
    t1 + MyPlugin.add_effective_duration allow max_d d
      ≤ t2 + MyPlugin.add_effective_duration allow max_d d := by
  refine ⟨get_user_info_add allow max_d db uid d reason t1 t2, rfl, ?_, by omega⟩
  simp [MyPlugin.add_record, hpos]

/-- Witness for C4 amended at `t1 = 0`, `t2 = 5`, duration `10`. -/
theorem add_expire_from_second_clock_witness :
    get_user_info (MyPlugin.add true 100 [] "u" 10 "" 0 5) "u"
      = some (MyPlugin.add_record true 100 "u" 10 "" 0 5) ∧
    (MyPlugin.add_record true 100 "u" 10 "" 0 5).ban_time = 0 ∧
    (MyPlugin.add_record true 100 "u" 10 "" 0 5).expire_time
      = some (5 + MyPlugin.add_effective_duration true 100 10) ∧
    (0 : Int) + MyPlugin.add_effective_duration true 100 10
      ≤ 5 + MyPlugin.add_effective_duration true 100 10 :=
  add_expire_from_second_clock true 100 [] "u" 10 "" 0 5 (by decide) (by decide)

/-- C9: a strictly negative requested duration stores a permanent record
(no expiry), for every `allow_permanent` and every `max_duration`. -/
theorem add_negative_duration_permanent (allow : Bool) (max_d : Int)
    (uid : String) (d : Int) (reason : String) (t1 t2 : Int)
    (hneg : d < 0) :
    (MyPlugin.add_record allow max_d uid d reason t1 t2).expire_time = none := by
  have hnot : ¬ 0 < MyPlugin.add_effective_duration allow max_d d := by
    simp only [MyPlugin.add_effective_duration]
    split <;> split <;> omega
  simp [MyPlugin.add_record, hnot]

/-- Witness for C9: duration `-5`, permanence disallowed, `max_duration`
both above and below the request. -/
theorem add_negative_duration_permanent_witness :
    (MyPlugin.add_record false 100 "u" (-5) "" 0 0).expire_time = none ∧
    (MyPlugin.add_record false (-10) "u" (-5) "" 0 0).expire_time = none :=
  ⟨add_negative_duration_permanent false 100 "u" (-5) "" 0 0 (by decide),
   add_negative_duration_permanent false (-10) "u" (-5) "" 0 0 (by decide)⟩

/-- C6: `rm` reports not-found on an absent user and leaves the table
unchanged; on a present user it reports removed, after which the
membership check is false at every time and grace setting. -/
theorem rm_outcomes (db : Blacklist) (uid : String) :
    (get_user_info db uid = none →
      MyPlugin.rm db uid = (MyPlugin.RmOutcome.not_found, db)) ∧
    (∀ r, get_user_info db uid = some r →
      (MyPlugin.rm db uid).1 = MyPlugin.RmOutcome.removed ∧
      ∀ grace now,
        (BlacklistDatabase.is_user_blacklisted grace
          (MyPlugin.rm db uid).2 uid now).1 = false) := by
  constructor
  · intro h
    simp [MyPlugin.rm, h]
  · intro r hr
    have h2 : MyPlugin.rm db uid
        = (MyPlugin.RmOutcome.removed, (remove_user db uid).2) := by
      simp [MyPlugin.rm, hr]
    refine ⟨by rw [h2], fun grace now => ?_⟩
    rw [h2]
    simp [BlacklistDatabase.is_user_blacklisted, get_user_info_remove db uid]

/-- Witness for C6: absent user on the empty table; present user on a
one-row table, checked afterwards at two times and grace settings. -/
theorem rm_outcomes_witness :
    MyPlugin.rm [] "u" = (MyPlugin.RmOutcome.not_found, []) ∧
    (MyPlugin.rm
      [{ user_id := "u", ban_time := 0, expire_time := none, reason := "" }]
      "u").1 = MyPlugin.RmOutcome.removed ∧
    (BlacklistDatabase.is_user_blacklisted 3600
      (MyPlugin.rm
        [{ user_id := "u", ban_time := 0, expire_time := none, reason := "" }]
        "u").2 "u" 123).1 = false :=
  ⟨(rm_outcomes [] "u").1 rfl,
   ((rm_outcomes
      [{ user_id := "u", ban_time := 0, expire_time := none, reason := "" }]
      "u").2 _ rfl).1,
   ((rm_outcomes
      [{ user_id := "u", ban_time := 0, expire_time := none, reason := "" }]
      "u").2 _ rfl).2 3600 123⟩

/-- C7: `clear` always reports the pre-clear count; afterwards the table
is empty; an already-empty table is left untouched (no `DELETE` issued),
and a non-empty one becomes the cleared table. -/
theorem clear_outcomes (db : Blacklist) :
    (MyPlugin.clear db).1 = get_blacklist_count db ∧
    get_blacklist_count (MyPlugin.clear db).2 = 0 ∧
    (get_blacklist_count db = 0 → (MyPlugin.clear db).2 = db) ∧
    (0 < get_blacklist_count db →
      (MyPlugin.clear db).2 = clear_blacklist db) := by
  simp only [MyPlugin.clear, get_blacklist_count, clear_blacklist]
  by_cases h : db.length = 0
  · rw [if_pos h]
    exact ⟨h.symm, h, fun _ => rfl, fun hpos => by omega⟩
  · rw [if_neg h]
    exact ⟨rfl, rfl, fun h0 => absurd h0 h, fun _ => rfl⟩

/-- Witness for C7: a two-row table reports 2 and ends empty; the empty
table reports 0 and is untouched. -/
theorem clear_outcomes_witness :
    (MyPlugin.clear
      [{ user_id := "a", ban_time := 1, expire_time := none, reason := "" },
       { user_id := "b", ban_time := 0, expire_time := none, reason := "" }]).1 = 2 ∧
    (MyPlugin.clear
      [{ user_id := "a", ban_time := 1, expire_time := none, reason := "" },
       { user_id := "b", ban_time := 0, expire_time := none, reason := "" }]).2 = [] ∧
    MyPlugin.clear ([] : Blacklist) = (0, []) :=
  ⟨(clear_outcomes _).1,
   (clear_outcomes
      [{ user_id := "a", ban_time := 1, expire_time := none, reason := "" },
       { user_id := "b", ban_time := 0, expire_time := none, reason := "" }]).2.2.2
      (by decide),
   by
    have h := (clear_outcomes ([] : Blacklist)).2.2.1 rfl
    have h1 := (clear_outcomes ([] : Blacklist)).1
    exact Prod.ext h1 h⟩

/-- C8: deleting reports success, deleting an absent user leaves the
table unchanged, and deleting twice equals deleting once (same state and
same success flag). -/
theorem remove_user_idempotent (db : Blacklist) (uid : String) :
    (remove_user db uid).1 = true ∧
    remove_user (remove_user db uid).2 uid = remove_user db uid ∧
    (get_user_info db uid = none → (remove_user db uid).2 = db) := by
  refine ⟨rfl, ?_, ?_⟩
  · simp [remove_user, List.filter_filter]
  · intro h
    rw [get_user_info, List.find?_eq_none] at h
    simp only [remove_user]
    rw [List.filter_eq_self]
    intro a ha
    simpa using h a ha

/-- Witness for C8 on a one-row table and an absent user. -/
theorem remove_user_idempotent_witness :
    (remove_user
      [{ user_id := "a", ban_time := 0, expire_time := none, reason := "" }]
      "u").1 = true ∧
    remove_user
      (remove_user
        [{ user_id := "a", ban_time := 0, expire_time := none, reason := "" }]
        "u").2 "u"
      = remove_user
        [{ user_id := "a", ban_time := 0, expire_time := none, reason := "" }]
        "u" ∧
    (remove_user
      [{ user_id := "a", ban_time := 0, expire_time := none, reason := "" }]
      "u").2
      = [{ user_id := "a", ban_time := 0, expire_time := none, reason := "" }] :=
  ⟨(remove_user_idempotent
      [{ user_id := "a", ban_time := 0, expire_time := none, reason := "" }] "u").1,
   (remove_user_idempotent
      [{ user_id := "a", ban_time := 0, expire_time := none, reason := "" }] "u").2.1,
   (remove_user_idempotent
      [{ user_id := "a", ban_time := 0, expire_time := none, reason := "" }] "u").2.2
      rfl⟩

/-- C10: in the wired message handler, a row whose expiry is strictly in
the past is deleted on that very check (there is no grace-period
configuration on this path), the lookup afterwards finds nothing, and the
message is not blocked. -/
theorem on_all_message_expired_immediate (db : Blacklist) (s : String)
    (now : Int) (r : BanRecord) (e : Int)
    (hr : get_user_info db s = some r) (he : r.expire_time = some e)
    (hlt : e < now) :
    MyPlugin.on_all_message db s now = (false, (remove_user db s).2) ∧
    get_user_info (MyPlugin.on_all_message db s now).2 s = none := by
  have h1 : MyPlugin.on_all_message db s now = (false, (remove_user db s).2) := by
    simp [MyPlugin.on_all_message, hr, he, hlt]
  exact ⟨h1, by rw [h1]; exact get_user_info_remove db s⟩

/-- Witness for C10: expiry `10`, checked at `11`, one millisecond of
grace nowhere in sight: the row is gone and the message passes. -/
theorem on_all_message_expired_immediate_witness :
    MyPlugin.on_all_message
      [{ user_id := "u", ban_time := 0, expire_time := some 10, reason := "" }]
      "u" 11
      = (false, (remove_user
          [{ user_id := "u", ban_time := 0, expire_time := some 10, reason := "" }]
          "u").2) ∧
    get_user_info (MyPlugin.on_all_message
      [{ user_id := "u", ban_time := 0, expire_time := some 10, reason := "" }]
      "u" 11).2 "u" = none :=
  on_all_message_expired_immediate
    [{ user_id := "u", ban_time := 0, expire_time := some 10, reason := "" }]
    "u" 11
    { user_id := "u", ban_time := 0, expire_time := some 10, reason := "" }
    10 rfl rfl (by decide)

/-- The SQLite comparison `banTimeDesc` is transitive. -/
theorem banTimeDesc_trans (a b c : BanRecord) :
    banTimeDesc a b → banTimeDesc b c → banTimeDesc a c := by
  simp only [banTimeDesc, decide_eq_true_eq]
  omega

/-- The SQLite comparison `banTimeDesc` is total. -/
theorem banTimeDesc_total (a b : BanRecord) :
    banTimeDesc a b || banTimeDesc b a := by
  simp only [banTimeDesc, Bool.or_eq_true, decide_eq_true_eq]
  omega

/-- The sort inside `get_blacklist_users` yields a permutation of the
table that is sorted by `ban_time` descending. -/
theorem mergeSort_banTimeDesc (db : Blacklist) :
    (db.mergeSort banTimeDesc).Perm db ∧
    (db.mergeSort banTimeDesc).Pairwise (fun a b => b.ban_time ≤ a.ban_time) := by
  refine ⟨List.mergeSort_perm db banTimeDesc, ?_⟩
  have h := @List.sorted_mergeSort BanRecord banTimeDesc
    (fun a b c => banTimeDesc_trans a b c) banTimeDesc_total db
  exact h.imp (fun hab => by simpa [banTimeDesc] using hab)

/-- Two permutations of each other with pairwise-distinct `ban_time`
values that are both sorted by `ban_time` descending are the same list:
`ORDER BY ban_time DESC` has a unique answer when the keys are distinct. -/
theorem sorted_perm_unique (l1 l2 : List BanRecord)
    (hperm : l1.Perm l2)
    (hnd : l1.Pairwise (fun a b => a.ban_time ≠ b.ban_time))
    (hs1 : l1.Pairwise (fun a b => b.ban_time ≤ a.ban_time))
    (hs2 : l2.Pairwise (fun a b => b.ban_time ≤ a.ban_time)) : l1 = l2 := by
  have hnd2 : l2.Pairwise (fun a b => a.ban_time ≠ b.ban_time) :=
    (hperm.pairwise_iff (fun h => h.symm)).mp hnd
  have hstrict1 : l1.Pairwise (fun a b => b.ban_time < a.ban_time) :=
    (hs1.and hnd).imp (fun h => lt_of_le_of_ne h.1 (Ne.symm h.2))
  have hstrict2 : l2.Pairwise (fun a b => b.ban_time < a.ban_time) :=
    (hs2.and hnd2).imp (fun h => lt_of_le_of_ne h.1 (Ne.symm h.2))
  haveI : IsAntisymm BanRecord (fun a b => b.ban_time < a.ban_time) :=
    ⟨fun a b h1 h2 => absurd h2 (not_lt.mpr h1.le)⟩
  exact List.eq_of_perm_of_sorted hperm hstrict1 hstrict2

/-- C5: on a table with pairwise-distinct `ban_time` values,
`get_blacklist_users` returns the descending-by-`ban_time` order of the
table with the first `(page - 1) * page_size` rows skipped and at most
`page_size` rows kept; an offset at or past the total yields the empty
list, and the returned rows are themselves in descending order.
`sorted` is the (unique) descending arrangement of the table. -/
theorem get_blacklist_users_paginates (db sorted : Blacklist)
    (page page_size : Nat)
    (hnd : db.Pairwise (fun a b => a.ban_time ≠ b.ban_time))
    (hperm : sorted.Perm db)
    (hsort : sorted.Pairwise (fun a b => b.ban_time ≤ a.ban_time)) :
    get_blacklist_users db page page_size
      = (sorted.drop ((page - 1) * page_size)).take page_size ∧
    (get_blacklist_users db page page_size).length ≤ page_size ∧
    (db.length ≤ (page - 1) * page_size →
      get_blacklist_users db page page_size = []) ∧
    (get_blacklist_users db page page_size).Pairwise
      (fun a b => b.ban_time ≤ a.ban_time) := by
  obtain ⟨hmp, hms⟩ := mergeSort_banTimeDesc db
  have hndm : (db.mergeSort banTimeDesc).Pairwise
      (fun a b => a.ban_time ≠ b.ban_time) :=
    (hmp.pairwise_iff (fun h => h.symm)).mpr hnd
  have heq : db.mergeSort banTimeDesc = sorted :=
    sorted_perm_unique _ _ (hmp.trans hperm.symm) hndm hms hsort
  have hmain : get_blacklist_users db page page_size
      = (sorted.drop ((page - 1) * page_size)).take page_size := by
    rw [get_blacklist_users, heq]
  refine ⟨hmain, ?_, fun hoff => ?_, ?_⟩
  · rw [hmain, List.length_take]
    exact Nat.min_le_left _ _
  · rw [hmain, List.drop_eq_nil_of_le, List.take_nil]
    rw [hperm.length_eq]
    exact hoff
  · rw [hmain]
    exact hsort.sublist
      ((List.take_sublist _ _).trans (List.drop_sublist _ _))

/-- Witness for C5: 15 rows with `ban_time` 15 down to 1, page 2 of size
10: exactly rows 11 through 15 of the descending order come back. -/
theorem get_blacklist_users_paginates_witness :
    get_blacklist_users
      ((List.range 15).map (fun i =>
        ({ user_id := toString i, ban_time := (15 : Int) - i,
           expire_time := none, reason := "" } : BanRecord))) 2 10
      = ((((List.range 15).map (fun i =>
        ({ user_id := toString i, ban_time := (15 : Int) - i,
           expire_time := none, reason := "" } : BanRecord))).drop 10).take 10) ∧
    ((((List.range 15).map (fun i =>
        ({ user_id := toString i, ban_time := (15 : Int) - i,
           expire_time := none, reason := "" } : BanRecord))).drop 10).take 10)
      = [{ user_id := "10", ban_time := 5, expire_time := none, reason := "" },
         { user_id := "11", ban_time := 4, expire_time := none, reason := "" },
         { user_id := "12", ban_time := 3, expire_time := none, reason := "" },
         { user_id := "13", ban_time := 2, expire_time := none, reason := "" },
         { user_id := "14", ban_time := 1, expire_time := none, reason := "" }] :=
  ⟨(get_blacklist_users_paginates
      ((List.range 15).map (fun i =>
        ({ user_id := toString i, ban_time := (15 : Int) - i,
           expire_time := none, reason := "" } : BanRecord)))
      ((List.range 15).map (fun i =>
        ({ user_id := toString i, ban_time := (15 : Int) - i,
           expire_time := none, reason := "" } : BanRecord)))
      2 10 (by decide) (List.Perm.refl _) (by decide)).1,
   by decide⟩
